import Mathlib

/-!
Verification of the BestRX submission pipeline of the pharmacy website
(`src/lib/bestrx.ts`): payload builders, response validators/normalizers,
and the refill/transfer submission hooks.

JavaScript runtime values that reach these functions (parsed JSON bodies,
`process.env` strings) are modelled by the `JSValue` type below; machine
behaviour such as truthiness, `typeof`, property access and `String(...)`
coercion is embedded explicitly.
-/

/-- A JavaScript value as seen by the bestrx.ts functions: the JSON values
a parsed response body can take, plus `undefined` for absent properties. -/
inductive JSValue where
  | undefined
  | null
  | bool (b : Bool)
  | num (n : Int)
  | str (s : String)
  | arr (elems : List JSValue)
  | obj (fields : List (String × JSValue))

/-- Strict equality `v === 'lit'` against a string literal. -/
def strictEqStr (v : JSValue) (s : String) : Bool :=
  match v with
  | .str t => t == s
  | _ => false

/-- Strict equality `v === true`. -/
def strictEqTrue (v : JSValue) : Bool :=
  match v with
  | .bool b => b
  | _ => false

/-- Strict equality `v === null` (used negated as `rx !== null`). -/
def strictEqNull (v : JSValue) : Bool :=
  match v with
  | .null => true
  | _ => false

/-- JavaScript truthiness of a value (`if (v)`). -/
def truthy : JSValue → Bool
  | .undefined => false
  | .null => false
  | .bool b => b
  | .num n => n != 0
  | .str s => s != ""
  | .arr _ => true
  | .obj _ => true

/-- Whether `typeof v === 'object'` holds (true for null, arrays and objects). -/
def typeofObject : JSValue → Bool
  | .null => true
  | .arr _ => true
  | .obj _ => true
  | _ => false

/-- Property access `v[k]`: field lookup on objects, `undefined` elsewhere
(the bestrx.ts code only accesses properties after a `typeof`/null guard, and
only named fields that JSON arrays and primitives do not carry). -/
def getField (v : JSValue) (k : String) : JSValue :=
  match v with
  | .obj fields =>
    match fields.find? (fun p => p.1 == k) with
    | some p => p.2
    | none => .undefined
  | _ => .undefined

mutual

/-- JavaScript `String(v)` coercion for the modelled values. -/
def jsToString : JSValue → String
  | .undefined => "undefined"
  | .null => "null"
  | .bool true => "true"
  | .bool false => "false"
  | .num n => toString n
  | .str s => s
  | .arr elems => jsArrToString elems
  | .obj _ => "[object Object]"

/-- Embeds `Array.prototype.toString`: elements joined by commas, with null and
undefined elements rendered as the empty string. -/
def jsArrToString : List JSValue → String
  | [] => ""
  | [JSValue.null] => ""
  | [JSValue.undefined] => ""
  | [v] => jsToString v
  | JSValue.null :: rest => "," ++ jsArrToString rest
  | JSValue.undefined :: rest => "," ++ jsArrToString rest
  | v :: rest => jsToString v ++ "," ++ jsArrToString rest

end

/-- JavaScript `a || b` where `a` is a nullable string (`null`/`undefined`
modelled as `none`); the empty string is falsy. -/
def jsOrString (a : Option String) (b : String) : String :=
  match a with
  | some s => if s == "" then b else s
  | none => b

/-- JavaScript `a || b` on modelled values (`a` absent modelled as `none`). -/
def jsOrVal (a : Option JSValue) (b : JSValue) : JSValue :=
  match a with
  | some v => if truthy v then v else b
  | none => b

/-- JavaScript `String.prototype.split(sep)` generalised to a character
predicate: splits at every separator character, keeping empty pieces
(`"a,,b"` gives `["a","","b"]`, `""` gives `[""]`). -/
def splitOnPred (p : Char → Bool) : List Char → List (List Char)
  | [] => [[]]
  | c :: rest =>
    if p c then [] :: splitOnPred p rest
    else
      match splitOnPred p rest with
      | [] => [[c]]
      | t :: ts => (c :: t) :: ts

/-- The whitespace set of `String.prototype.trim`. -/
def jsIsWhitespace (c : Char) : Bool :=
  c == ' ' || c == '\t' || c == '\n' || c == '\r' || c == '\x0b' || c == '\x0c' ||
  c == ' ' || c == ' ' || (' ' ≤ c && c ≤ ' ') ||
  c == ' ' || c == ' ' || c == ' ' || c == ' ' ||
  c == '　' || c == '﻿'

/-- Embeds `String.prototype.trim`: drop leading and trailing whitespace. -/
def trimChars (cs : List Char) : List Char :=
  ((cs.dropWhile jsIsWhitespace).reverse.dropWhile jsIsWhitespace).reverse

/-- Embeds `s.split(',').map(t => t.trim()).filter(t => t.length > 0)`, the token
parsing applied to `prescriptionNumbers` and `medicationNames` in
`buildRefillRequestPayload`. -/
def tokensOf (s : String) : List String :=
  ((splitOnPred (fun c => c == ',') s.data).map (fun t => String.mk (trimChars t))).filter
    (fun t => t.length > 0)

/-- Embeds `formatPhoneForBestRX`: `phone.replace(/\D/g, '')` keeps exactly the
ASCII digits. -/
def formatPhoneForBestRX (phone : String) : String :=
  String.mk (phone.data.filter (fun c => c.isDigit))

/-- The `BESTRX_ERROR_CODES` lookup table, in source order. -/
def BESTRX_ERROR_CODES : List (String × String) :=
  [("ERROR_INVALID_PHARMACY", "Invalid pharmacy number. Please verify your pharmacy details."),
   ("ERROR_INVALID_PATIENT", "Patient information not found. Please verify your name and date of birth."),
   ("ERROR_RX_NOT_FOUND", "One or more prescription numbers were not found. Please verify the numbers."),
   ("ERROR_RX_INACTIVE", "One or more prescriptions are no longer active. Please contact us for assistance."),
   ("ERROR_RX_REFILLED", "One or more prescriptions have already been refilled recently."),
   ("ERROR_GENERIC", "An error occurred while processing your request. Please try again."),
   ("ERROR0027", "Prescription not found. Please verify the prescription number."),
   ("ERROR0069", "Prescription cannot be transferred. Please contact the pharmacy."),
   ("ERROR0070", "Invalid destination pharmacy information."),
   ("ERROR0080", "Patient not found in system."),
   ("ERROR0003", "Patient date of birth does not match."),
   ("ERROR0082", "Transfer limit exceeded. Please try again later.")]

/-- Indexing `BESTRX_ERROR_CODES[code]`: `some` of the message when the key
is present, `none` (undefined) otherwise. -/
def lookupCode (code : String) : Option String :=
  (BESTRX_ERROR_CODES.find? (fun p => p.1 == code)).map (fun p => p.2)

/-- Embeds `mapBestRXError(errorCode, httpStatus)`. The argument is a JavaScript
string-or-undefined; `if (!errorCode)` treats both `undefined` and the empty
string as absent. -/
def mapBestRXError (errorCode : Option String) (httpStatus : Option Nat) : String :=
  if jsOrString errorCode "" == "" then
    if httpStatus == some 400 then "Invalid request. Please check your information and try again."
    else if httpStatus == some 403 then "Authentication failed. Please contact support."
    else if httpStatus == some 500 then "Service temporarily unavailable. Please try again later."
    else jsOrString (lookupCode "ERROR_GENERIC") ""
  else
    jsOrString (lookupCode (jsOrString errorCode "")) (jsOrString (lookupCode "ERROR_GENERIC") "")

/-- Embeds `RefillFormData` (schemas.ts): the validated refill form. Optional
string fields are `Option String`; `preferredService` is the enum value as
its runtime string (`"pickup"` or `"delivery"`). -/
structure RefillFormData where
  patientName : String
  dob : String
  phone : String
  email : Option String
  prescriptionNumbers : String
  medicationNames : String
  preferredService : String
  notes : Option String
  consent : Bool
deriving DecidableEq

/-- Embeds `TransferFormData` (schemas.ts): the validated transfer form. -/
structure TransferFormData where
  rxNumber : String
  rxFillDate : String
  transferToPharmacyName : String
  transferToPharmacyAddress1 : String
  transferToPharmacyAddress2 : Option String
  transferToPharmacyCity : String
  transferToPharmacyState : String
  transferToPharmacyZip : String
  transferToPharmacyPhone : String
  transferToPharmacyNCPDP : Option String
  transferRxRemark : Option String
  consent : Bool
deriving DecidableEq

/-- One entry of the `RxInRefillRequest` array of the refill payload. -/
structure RxRefillEntry where
  RxNumber : String
  MedicationName : String
deriving DecidableEq

/-- The refill payload shape returned by `buildRefillRequestPayload`. -/
structure RefillPayload where
  userName : String
  APIKey : String
  PharmacyNumber : String
  LastName : String
  DOB : String
  Phone : String
  DeliveryOption : String
  RxInRefillRequest : List RxRefillEntry
deriving DecidableEq

/-- Embeds `rxNumbers.map((rxNumber, index) => ({RxNumber: rxNumber,
MedicationName: medications[index] || ''}))`, with the running index made
explicit. -/
def buildRxEntriesAux (medications : List String) : Nat → List String → List RxRefillEntry
  | _, [] => []
  | index, rxNumber :: rest =>
    { RxNumber := rxNumber, MedicationName := jsOrString (medications.get? index) "" } ::
      buildRxEntriesAux medications (index + 1) rest

/-- Embeds `buildRefillRequestPayload(formData, pharmacyNumber, apiKey, username)`. -/
def buildRefillRequestPayload (formData : RefillFormData)
    (pharmacyNumber apiKey username : String) : RefillPayload :=
  let rxNumbers := tokensOf formData.prescriptionNumbers
  let medications := tokensOf formData.medicationNames
  let rxInRefillRequest := buildRxEntriesAux medications 0 rxNumbers
  { userName := username
    APIKey := apiKey
    PharmacyNumber := pharmacyNumber
    LastName :=
      jsOrString (((splitOnPred (fun c => c == ' ') formData.patientName.data).map
        (fun t => String.mk t)).getLast?) formData.patientName
    DOB := formData.dob
    Phone := formatPhoneForBestRX formData.phone
    DeliveryOption := jsOrString (some formData.preferredService) "Pickup"
    RxInRefillRequest := rxInRefillRequest }

/-- The nested destination-pharmacy record of the transfer payload. -/
structure TransferToPharmacy where
  Name : String
  Address : String
  Address2 : String
  City : String
  State : String
  Zip : String
  Phone : String
  NCPDP : String
deriving DecidableEq

/-- The transfer payload shape returned by `buildTransferRequestPayload`. -/
structure TransferPayload where
  PharmacyNumber : String
  RxNo : String
  RxFillDate : String
  TransferToPharmacy : TransferToPharmacy
  TransferDate : String
  Comments : String
deriving DecidableEq

/-- Embeds `buildTransferRequestPayload(formData, pharmacyNumber)`. The source
stamps `TransferDate` from the system clock
(`new Date().toISOString().split('T')[0]`); the clock reading is the
explicit `today` parameter here. -/
def buildTransferRequestPayload (formData : TransferFormData)
    (pharmacyNumber today : String) : TransferPayload :=
  { PharmacyNumber := pharmacyNumber
    RxNo := formData.rxNumber
    RxFillDate := formData.rxFillDate
    TransferToPharmacy :=
      { Name := formData.transferToPharmacyName
        Address := formData.transferToPharmacyAddress1
        Address2 := jsOrString formData.transferToPharmacyAddress2 ""
        City := formData.transferToPharmacyCity
        State := formData.transferToPharmacyState
        Zip := formData.transferToPharmacyZip
        Phone := formatPhoneForBestRX formData.transferToPharmacyPhone
        NCPDP := jsOrString formData.transferToPharmacyNCPDP "" }
    TransferDate := today
    Comments := jsOrString formData.transferRxRemark "" }

/-- The per-entry success test inside `validateRefillResponse`:
`typeof rx === 'object' && rx !== null && rx.Status === 'OK'`. -/
def okRefillEntry (rx : JSValue) : Bool :=
  typeofObject rx && !strictEqNull rx && strictEqStr (getField rx "Status") "OK"

/-- Embeds `validateRefillResponse(response)`. -/
def validateRefillResponse (response : JSValue) : Bool :=
  if !truthy response || !typeofObject response then false
  else
    match getField response "RxInRefillResponse" with
    | .arr rxResponses => rxResponses.any okRefillEntry
    | _ => false

/-- Embeds `validateTransferResponse(response)`. -/
def validateTransferResponse (response : JSValue) : Bool :=
  if !truthy response || !typeofObject response then false
  else strictEqTrue (getField response "IsValid") && strictEqTrue (getField response "RxTransferred")

/-- Embeds `extractRefillErrorMessage(response)`: finds the first non-OK entry of
`RxInRefillResponse` and maps its `ErrorCode` through the table (after
`String(...)` coercion) or falls back to its raw `ErrorMessage`. -/
def extractRefillErrorMessage (response : JSValue) : Option String :=
  if !truthy response || !typeofObject response then none
  else
    match getField response "RxInRefillResponse" with
    | .arr rxResponses =>
      if rxResponses.length > 0 then
        match rxResponses.find?
            (fun rx => typeofObject rx && !strictEqNull rx &&
              !strictEqStr (getField rx "Status") "OK") with
        | some firstError =>
          let errorCode := getField firstError "ErrorCode"
          let errorMessage := getField firstError "ErrorMessage"
          if truthy errorCode then some (mapBestRXError (some (jsToString errorCode)) none)
          else if truthy errorMessage then some (jsToString errorMessage)
          else none
        | none => none
      else none
    | _ => none

/-- Embeds `extractTransferErrorMessage(response)`: reads the top-level
`ErrorCode`/`ErrorMessage` fields. The raw `ErrorMessage` value is returned
as is (the source casts but does not convert it), hence `Option JSValue`. -/
def extractTransferErrorMessage (response : JSValue) : Option JSValue :=
  if !truthy response || !typeofObject response then none
  else
    let errorCode := getField response "ErrorCode"
    let errorMessage := getField response "ErrorMessage"
    if truthy errorCode then some (.str (mapBestRXError (some (jsToString errorCode)) none))
    else if truthy errorMessage then some errorMessage
    else some (.str (mapBestRXError none none))

/-- The outcome of the single `fetch` of a submit function: either a
network-level exception (connection failure, timeout, or a body that fails
to parse as JSON), or an HTTP response with its status and parsed JSON
body. `response.ok` is derived from the status as the fetch API defines it. -/
inductive FetchOutcome where
  | throws
  | response (status : Nat) (body : JSValue)

/-- Embeds `response.ok`: status in the inclusive range 200-299. -/
def responseOk (status : Nat) : Bool :=
  200 ≤ status && status < 300

/-- The `{success, message, data}` object returned by the submit functions.
`message` is typed `string` in the source but `submitTransferToBestRX` can
propagate a raw non-string `ErrorMessage` value through `||`, so it is a
`JSValue` here. -/
structure SubmissionResult where
  success : Bool
  message : JSValue
  data : Option JSValue

/-- Embeds `submitRefillToBestRX(payload)`, with the network modelled by the
`outcome` oracle (the payload is serialised into the request and does not
influence which outcome the network returns). -/
def submitRefillToBestRX (outcome : FetchOutcome) : SubmissionResult :=
  match outcome with
  | .throws =>
    { success := false
      message := .str "Unable to connect to pharmacy service. Please try again later."
      data := none }
  | .response status body =>
    if !responseOk status then
      { success := false
        message := .str (jsOrString (extractRefillErrorMessage body)
          (mapBestRXError none (some status)))
        data := none }
    else if !validateRefillResponse body then
      { success := false
        message := .str (jsOrString (extractRefillErrorMessage body)
          "Unable to process refill request. Please try again.")
        data := none }
    else
      { success := true
        message := .str "Refill request submitted successfully"
        data := some body }

/-- Embeds `submitTransferToBestRX(payload, basicAuthHeader)`, with the network
modelled by the `outcome` oracle. -/
def submitTransferToBestRX (outcome : FetchOutcome) : SubmissionResult :=
  match outcome with
  | .throws =>
    { success := false
      message := .str "Unable to connect to pharmacy service. Please try again later."
      data := none }
  | .response status body =>
    if !responseOk status then
      { success := false
        message := jsOrVal (extractTransferErrorMessage body)
          (.str (mapBestRXError none (some status)))
        data := none }
    else if !validateTransferResponse body then
      { success := false
        message := jsOrVal (extractTransferErrorMessage body)
          (.str "Unable to process transfer request. Please try again.")
        data := none }
    else
      { success := true
        message := .str "Transfer request submitted successfully"
        data := some body }

/-- The BestRX entries of `process.env` read by the submission hooks; a
variable that is unset is `none`. -/
structure BestRXEnv where
  username : Option String
  apiKey : Option String
  password : Option String
  pharmacyNumber : Option String
deriving DecidableEq

/-- Truthiness of a `process.env` entry: set and non-empty. -/
def envTruthy (v : Option String) : Bool :=
  match v with
  | some s => s != ""
  | none => false

/-- The fixed message thrown when a required credential is missing. -/
def notConfiguredMessage : String :=
  "Pharmacy service is not properly configured. Please contact support."

/-- Observable outcome of one `submit(data)` call of a submission hook:
the final status/error React state, the value returned or the message of
the error thrown, and how many network operations were performed (the
primary BestRX fetch and the secondary Supabase audit RPC). -/
structure HookOutcome where
  status : String
  errorMsg : Option String
  returned : Except String (Option JSValue)
  primaryCalls : Nat
  auditCalls : Nat
  auditFailureLogged : Bool

/-- The `submit` function of `useRefillFormSubmission`. The primary network
outcome is the `primary` oracle; `auditFails` says whether the secondary
Supabase audit RPC throws. The audit call sits in its own try/catch whose
handler only logs, so its failure is recorded in `auditFailureLogged` and
nowhere else. -/
def refillSubmitModel (env : BestRXEnv) (primary : FetchOutcome) (auditFails : Bool)
    (data : RefillFormData) : HookOutcome :=
  if !(envTruthy env.username && envTruthy env.apiKey && envTruthy env.pharmacyNumber) then
    { status := "error"
      errorMsg := some notConfiguredMessage
      returned := .error notConfiguredMessage
      primaryCalls := 0
      auditCalls := 0
      auditFailureLogged := false }
  else
    let _payload := buildRefillRequestPayload data (env.pharmacyNumber.getD "")
      (env.apiKey.getD "") (env.username.getD "")
    let result := submitRefillToBestRX primary
    if !result.success then
      { status := "error"
        errorMsg := some (jsToString result.message)
        returned := .error (jsToString result.message)
        primaryCalls := 1
        auditCalls := 0
        auditFailureLogged := false }
    else
      { status := "success"
        errorMsg := none
        returned := .ok result.data
        primaryCalls := 1
        auditCalls := 1
        auditFailureLogged := auditFails }

/-- The `submit` function of `useTransferFormSubmission`, modelled like
`refillSubmitModel` (the transfer hook reads `BESTRX_PASSWORD` instead of
`BESTRX_API_KEY`, and stamps `today` into the payload). -/
def transferSubmitModel (env : BestRXEnv) (primary : FetchOutcome) (auditFails : Bool)
    (data : TransferFormData) (today : String) : HookOutcome :=
  if !(envTruthy env.username && envTruthy env.password && envTruthy env.pharmacyNumber) then
    { status := "error"
      errorMsg := some notConfiguredMessage
      returned := .error notConfiguredMessage
      primaryCalls := 0
      auditCalls := 0
      auditFailureLogged := false }
  else
    let _payload := buildTransferRequestPayload data (env.pharmacyNumber.getD "") today
    let result := submitTransferToBestRX primary
    if !result.success then
      { status := "error"
        errorMsg := some (jsToString result.message)
        returned := .error (jsToString result.message)
        primaryCalls := 1
        auditCalls := 0
        auditFailureLogged := false }
    else
      { status := "success"
        errorMsg := none
        returned := .ok result.data
        primaryCalls := 1
        auditCalls := 1
        auditFailureLogged := auditFails }

/-- Spec-side definition (for comparison with the source's last-name
derivation): the final whitespace-separated token of a string, absent when
the string holds no token. -/
def finalWhitespaceToken (s : String) : Option String :=
  (((splitOnPred jsIsWhitespace s.data).map (fun t => String.mk t)).filter
    (fun t => t != "")).getLast?

/-- A representative validated refill form. -/
def sampleRefillForm : RefillFormData :=
  { patientName := "Jane Doe"
    dob := "1990-01-02"
    phone := "(614) 555-1234"
    email := none
    prescriptionNumbers := "111, 222"
    medicationNames := "Drug A"
    preferredService := "pickup"
    notes := none
    consent := true }

/-- Refill form whose prescription numbers are newline-separated with no
comma. -/
def newlineRefillForm : RefillFormData :=
  { sampleRefillForm with prescriptionNumbers := "111\n222" }

/-- Refill form whose patient name carries a trailing space. -/
def trailingSpaceRefillForm : RefillFormData :=
  { sampleRefillForm with patientName := "John Smith " }

/-- Refill form whose patient name is tab-separated. -/
def tabNameRefillForm : RefillFormData :=
  { sampleRefillForm with patientName := "John\tSmith" }

/-- A representative validated transfer form. -/
def sampleTransferForm : TransferFormData :=
  { rxNumber := "12345"
    rxFillDate := "2025-12-01"
    transferToPharmacyName := "Elevated Wellness"
    transferToPharmacyAddress1 := "1 Main St"
    transferToPharmacyAddress2 := none
    transferToPharmacyCity := "Columbus"
    transferToPharmacyState := "OH"
    transferToPharmacyZip := "43004"
    transferToPharmacyPhone := "(614) 555-9999"
    transferToPharmacyNCPDP := none
    transferRxRemark := none
    consent := true }

/-- A refill response body that validates successfully. -/
def okRefillBody : JSValue :=
  .obj [("RxInRefillResponse", .arr [.obj [("Status", .str "OK")]])]

/-- A transfer response body that validates successfully. -/
def okTransferBody : JSValue :=
  .obj [("IsValid", .bool true), ("RxTransferred", .bool true)]

/-- An environment with every BestRX credential present. -/
def fullEnv : BestRXEnv :=
  { username := some "user", apiKey := some "key", password := some "pw",
    pharmacyNumber := some "123" }

/-- An environment missing `BESTRX_API_KEY` and `BESTRX_PASSWORD`. -/
def envMissingKey : BestRXEnv :=
  { username := some "user", apiKey := none, password := none,
    pharmacyNumber := some "123" }

lemma splitOnPred_ne_nil (p : Char → Bool) (cs : List Char) : splitOnPred p cs ≠ [] := by
  cases cs with
  | nil => simp [splitOnPred]
  | cons c rest =>
    simp only [splitOnPred]
    split
    · simp
    · split
      · simp
      · simp

lemma splitOnPred_no_sep (p : Char → Bool) (cs : List Char)
    (h : ∀ c ∈ cs, p c = false) : splitOnPred p cs = [cs] := by
  induction cs with
  | nil => rfl
  | cons c rest ih =>
    have hc : p c = false := h c (List.mem_cons_self c rest)
    have hrest : splitOnPred p rest = [rest] :=
      ih (fun x hx => h x (List.mem_cons_of_mem c hx))
    simp [splitOnPred, hc, hrest]

lemma buildRxEntriesAux_length (medications : List String) (j : Nat) (rxs : List String) :
    (buildRxEntriesAux medications j rxs).length = rxs.length := by
  induction rxs generalizing j with
  | nil => rfl
  | cons r rest ih => simp [buildRxEntriesAux, ih]

lemma buildRxEntriesAux_getElem? (medications : List String) (rxs : List String)
    (j i : Nat) :
    (buildRxEntriesAux medications j rxs)[i]? =
      (rxs[i]?).map (fun r =>
        { RxNumber := r, MedicationName := jsOrString medications[j + i]? "" }) := by
  induction rxs generalizing j i with
  | nil => simp [buildRxEntriesAux]
  | cons r rest ih =>
    cases i with
    | zero => simp [buildRxEntriesAux]
    | succ n =>
      simp only [buildRxEntriesAux, List.getElem?_cons_succ]
      rw [ih (j + 1) n]
      have h : j + 1 + n = j + (n + 1) := by omega
      rw [h]

lemma tokensOf_mem_ne_empty (s : String) (t : String) (ht : t ∈ tokensOf s) : t ≠ "" := by
  have := (List.mem_filter.mp ht).2
  intro he
  subst he
  simp at this

lemma jsOrString_getElem?_of_tokens (s : String) (i : Nat) :
    jsOrString (tokensOf s)[i]? "" = (tokensOf s).getD i "" := by
  rw [List.getD_eq_getElem?_getD]
  cases h : (tokensOf s)[i]? with
  | none => rfl
  | some t =>
    have hmem : t ∈ tokensOf s := List.getElem?_mem h
    have hne : t ≠ "" := tokensOf_mem_ne_empty s t hmem
    simp [jsOrString, hne]

lemma strictEqStr_iff (v : JSValue) (s : String) : strictEqStr v s = true ↔ v = .str s := by
  cases v <;> simp [strictEqStr]

lemma strictEqTrue_iff (v : JSValue) : strictEqTrue v = true ↔ v = .bool true := by
  cases v <;> simp [strictEqTrue]

lemma strictEqNull_false_iff (v : JSValue) : strictEqNull v = false ↔ v ≠ .null := by
  cases v <;> simp [strictEqNull]

lemma getField_truthy_obj (b : JSValue) (k : String)
    (h : truthy (getField b k) = true) : truthy b = true ∧ typeofObject b = true := by
  cases b <;> first
    | exact ⟨rfl, rfl⟩
    | simp [getField, truthy] at h

lemma lookupCode_ne_empty (code : String) (v : String) (h : lookupCode code = some v) :
    v ≠ "" := by
  unfold lookupCode at h
  cases hf : BESTRX_ERROR_CODES.find? (fun p => p.1 == code) with
  | none => rw [hf] at h; simp at h
  | some q =>
    rw [hf] at h
    simp at h
    have hmem : q ∈ BESTRX_ERROR_CODES := List.mem_of_find?_eq_some hf
    have hvals : ∀ q ∈ BESTRX_ERROR_CODES, q.2 ≠ "" := by decide
    rw [← h]
    exact hvals q hmem

lemma validateRefillResponse_eq_match (b : JSValue) :
    validateRefillResponse b =
      (match getField b "RxInRefillResponse" with
        | .arr rxResponses => rxResponses.any okRefillEntry
        | _ => false) := by
  cases b <;> simp [validateRefillResponse, getField, truthy, typeofObject]

lemma validateTransferResponse_eq_match (b : JSValue) :
    validateTransferResponse b =
      (strictEqTrue (getField b "IsValid") && strictEqTrue (getField b "RxTransferred")) := by
  cases b <;> simp [validateTransferResponse, getField, truthy, typeofObject, strictEqTrue]

lemma submitRefillToBestRX_success_data (outcome : FetchOutcome)
    (h : (submitRefillToBestRX outcome).success = true) :
    ∀ status body, outcome = .response status body →
      (submitRefillToBestRX outcome).data = some body := by
  intro status body he
  subst he
  by_cases hok : responseOk status = false
  · simp [submitRefillToBestRX, hok] at h
  · by_cases hv : validateRefillResponse body = false
    · simp [submitRefillToBestRX, hok, hv] at h
    · simp [submitRefillToBestRX, hok, hv]

lemma submitTransferToBestRX_success_data (outcome : FetchOutcome)
    (h : (submitTransferToBestRX outcome).success = true) :
    ∀ status body, outcome = .response status body →
      (submitTransferToBestRX outcome).data = some body := by
  intro status body he
  subst he
  by_cases hok : responseOk status = false
  · simp [submitTransferToBestRX, hok] at h
  · by_cases hv : validateTransferResponse body = false
    · simp [submitTransferToBestRX, hok, hv] at h
    · simp [submitTransferToBestRX, hok, hv]

/-- C9: `formatPhoneForBestRX` removes every non-digit character, so
`formatPhoneForBestRX("(614) 555-1234") = "6145551234"`, and it is
idempotent. -/
theorem formatPhoneForBestRX_digits_and_idempotent :
    formatPhoneForBestRX "(614) 555-1234" = "6145551234"
      ∧ ∀ s : String, formatPhoneForBestRX (formatPhoneForBestRX s) = formatPhoneForBestRX s := by
  constructor
  · rfl
  · intro s
    show String.mk ((String.mk (s.data.filter (fun c => c.isDigit))).data.filter
      (fun c => c.isDigit)) = String.mk (s.data.filter (fun c => c.isDigit))
    rw [show (String.mk (s.data.filter (fun c => c.isDigit))).data
      = s.data.filter (fun c => c.isDigit) from rfl]
    rw [List.filter_filter]
    simp

/-- C2: the `RxInRefillRequest` array of the refill payload has exactly one
entry per non-empty comma-split trimmed prescription token, pairing the i-th
prescription token with the i-th medication token and substituting the empty
string past the end of the medication list; on `prescriptionNumbers =
"111, 222"` with `medicationNames = "Drug A"` it is
`[{RxNumber:"111", MedicationName:"Drug A"}, {RxNumber:"222", MedicationName:""}]`. -/
theorem buildRefillRequestPayload_rx_pairing (fd : RefillFormData)
    (pharmacyNumber apiKey username : String) :
    ((buildRefillRequestPayload fd pharmacyNumber apiKey username).RxInRefillRequest.length
        = (tokensOf fd.prescriptionNumbers).length)
      ∧ (∀ i : Nat,
          (buildRefillRequestPayload fd pharmacyNumber apiKey username).RxInRefillRequest[i]?
            = ((tokensOf fd.prescriptionNumbers)[i]?).map (fun rx =>
                { RxNumber := rx,
                  MedicationName := (tokensOf fd.medicationNames).getD i "" }))
      ∧ (buildRefillRequestPayload sampleRefillForm pharmacyNumber apiKey
          username).RxInRefillRequest
          = [{ RxNumber := "111", MedicationName := "Drug A" },
             { RxNumber := "222", MedicationName := "" }] := by
  refine ⟨?_, ?_, ?_⟩
  · exact buildRxEntriesAux_length (tokensOf fd.medicationNames) 0
      (tokensOf fd.prescriptionNumbers)
  · intro i
    have h := buildRxEntriesAux_getElem? (tokensOf fd.medicationNames)
      (tokensOf fd.prescriptionNumbers) 0 i
    simp only [Nat.zero_add] at h
    rw [show (buildRefillRequestPayload fd pharmacyNumber apiKey username).RxInRefillRequest
      = buildRxEntriesAux (tokensOf fd.medicationNames) 0 (tokensOf fd.prescriptionNumbers)
      from rfl]
    rw [h, jsOrString_getElem?_of_tokens]
  · rfl

/-- C10: the prescription-number and medication-name fields are split on
the comma character only, so a `prescriptionNumbers` value with no comma
yields a single `RxInRefillRequest` entry holding the whole trimmed string
(newlines included). -/
theorem buildRefillRequestPayload_comma_only_split (fd : RefillFormData)
    (pharmacyNumber apiKey username : String)
    (hnc : fd.prescriptionNumbers.data.all (fun c => !(c == ',')) = true)
    (hne : 0 < (String.mk (trimChars fd.prescriptionNumbers.data)).length) :
    (buildRefillRequestPayload fd pharmacyNumber apiKey username).RxInRefillRequest
      = [{ RxNumber := String.mk (trimChars fd.prescriptionNumbers.data),
           MedicationName := (tokensOf fd.medicationNames).getD 0 "" }] := by
  have hsplit : splitOnPred (fun c => c == ',') fd.prescriptionNumbers.data
      = [fd.prescriptionNumbers.data] := by
    apply splitOnPred_no_sep
    intro c hc
    have := List.all_eq_true.mp hnc c hc
    simpa using this
  have htok : tokensOf fd.prescriptionNumbers
      = [String.mk (trimChars fd.prescriptionNumbers.data)] := by
    unfold tokensOf
    rw [hsplit]
    simp [List.filter_cons, hne]
    intro h0
    have hlen : (String.mk (trimChars fd.prescriptionNumbers.data)).length
        = (trimChars fd.prescriptionNumbers.data).length := rfl
    rw [hlen, h0] at hne
    simp at hne
  rw [show (buildRefillRequestPayload fd pharmacyNumber apiKey username).RxInRefillRequest
    = buildRxEntriesAux (tokensOf fd.medicationNames) 0 (tokensOf fd.prescriptionNumbers)
    from rfl]
  rw [htok]
  simp only [buildRxEntriesAux, List.get?_eq_getElem?]
  rw [jsOrString_getElem?_of_tokens]

/-- C10 witness: prescription numbers `"111\n222"` (newline-separated, no
comma) produce one entry whose `RxNumber` keeps the embedded newline. -/
theorem buildRefillRequestPayload_comma_only_split_witness :
    (buildRefillRequestPayload newlineRefillForm "p" "k" "u").RxInRefillRequest
        = [{ RxNumber := "111\n222", MedicationName := "Drug A" }]
      ∧ '\n' ∈ ("111\n222" : String).data := by
  constructor
  · exact buildRefillRequestPayload_comma_only_split newlineRefillForm "p" "k" "u"
      (by decide) (by decide)
  · decide

/-- C8 counterexample: for `patientName = "John Smith "` (trailing space)
the built `LastName` is the whole string, while the final
whitespace-separated token is `"Smith"`; the claim fails on this form. -/
theorem buildRefillRequestPayload_lastName_counterexample :
    (buildRefillRequestPayload trailingSpaceRefillForm "p" "k" "u").LastName = "John Smith "
      ∧ finalWhitespaceToken "John Smith " = some "Smith"
      ∧ ("John Smith " : String) ≠ "Smith" := by
  refine ⟨rfl, rfl, ?_⟩
  decide

/-- C8 amended: `LastName` is the last segment of `patientName` split on
the single space character when that segment is non-empty, and the whole
`patientName` otherwise; in particular, when `patientName` contains no
space character, `LastName` is the whole `patientName`. -/
theorem buildRefillRequestPayload_lastName (fd : RefillFormData)
    (pharmacyNumber apiKey username : String) :
    ((buildRefillRequestPayload fd pharmacyNumber apiKey username).LastName
        = jsOrString (((splitOnPred (fun c => c == ' ') fd.patientName.data).map
            (fun t => String.mk t)).getLast?) fd.patientName)
      ∧ (fd.patientName.data.all (fun c => !(c == ' ')) = true →
          (buildRefillRequestPayload fd pharmacyNumber apiKey username).LastName
            = fd.patientName) := by
  constructor
  · rfl
  · intro hns
    have hsplit : splitOnPred (fun c => c == ' ') fd.patientName.data
        = [fd.patientName.data] := by
      apply splitOnPred_no_sep
      intro c hc
      have := List.all_eq_true.mp hns c hc
      simpa using this
    show jsOrString (((splitOnPred (fun c => c == ' ') fd.patientName.data).map
      (fun t => String.mk t)).getLast?) fd.patientName = fd.patientName
    rw [hsplit]
    simp only [List.map_cons, List.map_nil, List.getLast?_singleton]
    have hmk : String.mk fd.patientName.data = fd.patientName := rfl
    rw [hmk]
    unfold jsOrString
    by_cases he : fd.patientName == ""
    · simp only [he, if_true]
    · simp only [he, if_false]
      have : fd.patientName = fd.patientName := rfl
      cases hb : (fd.patientName == "") with
      | true => rw [hb] at he; simp at he
      | false => rfl

/-- C8 amended witness: a tab-separated patient name has no space
character, so the whole string becomes `LastName`. -/
theorem buildRefillRequestPayload_lastName_witness :
    (buildRefillRequestPayload tabNameRefillForm "p" "k" "u").LastName = "John\tSmith" := by
  have h := (buildRefillRequestPayload_lastName tabNameRefillForm "p" "k" "u").2 (by decide)
  exact h

/-- C4 counterexample: the empty string is an unrecognized code, yet with
HTTP status 400 `mapBestRXError` returns the 400 message, not the
ERROR_GENERIC message — empty-string codes are falsy and take the
status branch. -/
theorem mapBestRXError_empty_code_counterexample :
    lookupCode "" = none
      ∧ mapBestRXError (some "") (some 400)
          = "Invalid request. Please check your information and try again."
      ∧ mapBestRXError (some "") (some 400)
          ≠ "An error occurred while processing your request. Please try again." := by
  refine ⟨rfl, rfl, ?_⟩
  decide

/-- C4 amended: `mapBestRXError` never returns the empty string; a
recognized non-empty code maps through the lookup table and an unrecognized
non-empty code yields the ERROR_GENERIC message; when the code is absent or
the empty string (both falsy), statuses 400, 403 and 500 map to their
distinct generic messages and any other status yields the ERROR_GENERIC
message. -/
theorem mapBestRXError_total (c : Option String) (s : Option Nat) :
    mapBestRXError c s ≠ ""
      ∧ (∀ code : String, c = some code → code ≠ "" →
          (lookupCode code = some (mapBestRXError c s)
            ∨ (lookupCode code = none
                ∧ mapBestRXError c s
                    = "An error occurred while processing your request. Please try again.")))
      ∧ ((c = none ∨ c = some "") →
          ((s = some 400 → mapBestRXError c s
              = "Invalid request. Please check your information and try again.")
            ∧ (s = some 403 → mapBestRXError c s
                = "Authentication failed. Please contact support.")
            ∧ (s = some 500 → mapBestRXError c s
                = "Service temporarily unavailable. Please try again later.")
            ∧ (s ≠ some 400 → s ≠ some 403 → s ≠ some 500 → mapBestRXError c s
                = "An error occurred while processing your request. Please try again."))) := by
  refine ⟨?_, ?_, ?_⟩
  · unfold mapBestRXError
    by_cases hc : jsOrString c "" == ""
    · simp only [hc, if_true]
      by_cases h4 : s == some 400
      · simp [h4]
      · by_cases h3 : s == some 403
        · simp [h4, h3]
        · by_cases h5 : s == some 500
          · simp [h4, h3, h5]
          · simp [h4, h3, h5]
            decide
    · simp only [hc, if_false]
      cases hl : lookupCode (jsOrString c "") with
      | none => simp [jsOrString, hl]; decide
      | some v =>
        have hv : v ≠ "" := lookupCode_ne_empty _ v hl
        simp [jsOrString, hl, hv]
  · intro code hcode hne
    subst hcode
    have hcf : (jsOrString (some code) "" == "") = false := by
      simp [jsOrString, hne]
    unfold mapBestRXError
    rw [hcf]
    simp only [Bool.false_eq_true, if_false]
    have hjs : jsOrString (some code) "" = code := by
      simp [jsOrString, hne]
    rw [hjs]
    cases hl : lookupCode code with
    | none => right; exact ⟨rfl, by simp [jsOrString, hl]; rfl⟩
    | some v =>
      left
      have hv : v ≠ "" := lookupCode_ne_empty _ v hl
      simp [jsOrString, hl, hv]
  · intro hc
    have hcf : (jsOrString c "" == "") = true := by
      rcases hc with h | h <;> subst h <;> simp [jsOrString]
    unfold mapBestRXError
    rw [hcf]
    simp only [if_true]
    refine ⟨?_, ?_, ?_, ?_⟩
    · intro h4; subst h4; rfl
    · intro h3
      subst h3
      rfl
    · intro h5
      subst h5
      rfl
    · intro h4 h3 h5
      have e4 : (s == some 400) = false := by
        cases hb : (s == some 400) with
        | true => exact absurd (eq_of_beq hb) h4
        | false => rfl
      have e3 : (s == some 403) = false := by
        cases hb : (s == some 403) with
        | true => exact absurd (eq_of_beq hb) h3
        | false => rfl
      have e5 : (s == some 500) = false := by
        cases hb : (s == some 500) with
        | true => exact absurd (eq_of_beq hb) h5
        | false => rfl
      rw [e4, e3, e5]
      simp only [Bool.false_eq_true, if_false]
      rfl

/-- C4 amended witness: at the recognized code `ERROR0069` with no status,
the result is the table entry and is non-empty. -/
theorem mapBestRXError_total_witness :
    mapBestRXError (some "ERROR0069") none ≠ ""
      ∧ (lookupCode "ERROR0069" = some (mapBestRXError (some "ERROR0069") none)
          ∨ (lookupCode "ERROR0069" = none
              ∧ mapBestRXError (some "ERROR0069") none
                  = "An error occurred while processing your request. Please try again.")) :=
  ⟨(mapBestRXError_total (some "ERROR0069") none).1,
   (mapBestRXError_total (some "ERROR0069") none).2.1 "ERROR0069" rfl (by decide)⟩

/-- C5 counterexample: an object body with neither `ErrorCode` nor
`ErrorMessage` does not report absent — `extractTransferErrorMessage`
returns the generic ERROR_GENERIC message. -/
theorem extractTransferErrorMessage_counterexample :
    extractTransferErrorMessage (JSValue.obj [])
        = some (JSValue.str "An error occurred while processing your request. Please try again.")
      ∧ extractTransferErrorMessage (JSValue.obj []) ≠ none := by
  constructor
  · rfl
  · intro h
    rw [show extractTransferErrorMessage (JSValue.obj [])
      = some (JSValue.str "An error occurred while processing your request. Please try again.")
      from rfl] at h
    exact Option.noConfusion h

/-- C5 amended: `extractTransferErrorMessage` reads the top-level
`ErrorCode` and `ErrorMessage` fields; a truthy error code is mapped
through the lookup table (after string coercion), otherwise a truthy error
message is returned raw; otherwise, for a truthy object body, it returns
the generic ERROR_GENERIC message — it reports absent only for falsy or
non-object bodies. -/
theorem extractTransferErrorMessage_spec (b : JSValue) :
    (¬(truthy b = true ∧ typeofObject b = true) → extractTransferErrorMessage b = none)
      ∧ (truthy (getField b "ErrorCode") = true →
          extractTransferErrorMessage b
            = some (.str (mapBestRXError (some (jsToString (getField b "ErrorCode"))) none)))
      ∧ (truthy (getField b "ErrorCode") = false →
          truthy (getField b "ErrorMessage") = true →
          extractTransferErrorMessage b = some (getField b "ErrorMessage"))
      ∧ (truthy b = true → typeofObject b = true →
          truthy (getField b "ErrorCode") = false →
          truthy (getField b "ErrorMessage") = false →
          extractTransferErrorMessage b
            = some (.str "An error occurred while processing your request. Please try again.")) := by
  refine ⟨?_, ?_, ?_, ?_⟩
  · intro h
    cases b with
    | arr elems => exact absurd ⟨rfl, rfl⟩ h
    | obj fields => exact absurd ⟨rfl, rfl⟩ h
    | undefined => rfl
    | null => rfl
    | bool v => simp [extractTransferErrorMessage, truthy, typeofObject]
    | num n => simp [extractTransferErrorMessage, truthy, typeofObject]
    | str s => simp [extractTransferErrorMessage, truthy, typeofObject]
  · intro h
    obtain ⟨hb, ht⟩ := getField_truthy_obj b "ErrorCode" h
    simp [extractTransferErrorMessage, hb, ht, h]
  · intro hcode hmsg
    obtain ⟨hb, ht⟩ := getField_truthy_obj b "ErrorMessage" hmsg
    simp [extractTransferErrorMessage, hb, ht, hcode, hmsg]
  · intro hb ht hcode hmsg
    simp [extractTransferErrorMessage, hb, ht, hcode, hmsg]
    rfl

/-- C5 amended witness: a body with `ErrorCode = "ERROR0027"` maps through
the table. -/
theorem extractTransferErrorMessage_spec_witness :
    extractTransferErrorMessage (JSValue.obj [("ErrorCode", JSValue.str "ERROR0027")])
      = some (JSValue.str "Prescription not found. Please verify the prescription number.") := by
  have h := (extractTransferErrorMessage_spec
    (JSValue.obj [("ErrorCode", JSValue.str "ERROR0027")])).2.1 rfl
  exact h

/-- C6: `validateRefillResponse` is true exactly when the body's
`RxInRefillResponse` field is an array holding at least one non-null object
entry whose `Status` field is the string `"OK"`; missing field, non-array
value, empty array or an array with no OK entry all give false, and any
array with one OK entry (mixed or not) gives true. -/
theorem validateRefillResponse_iff (b : JSValue) :
    validateRefillResponse b = true ↔
      ∃ xs, getField b "RxInRefillResponse" = JSValue.arr xs
        ∧ ∃ rx ∈ xs, typeofObject rx = true ∧ rx ≠ JSValue.null
            ∧ getField rx "Status" = JSValue.str "OK" := by
  rw [validateRefillResponse_eq_match b]
  cases hg : getField b "RxInRefillResponse" with
  | arr xs =>
    simp only [List.any_eq_true]
    constructor
    · rintro ⟨rx, hmem, hok⟩
      refine ⟨xs, rfl, rx, hmem, ?_⟩
      unfold okRefillEntry at hok
      have h1 := (Bool.and_eq_true _ _).mp hok
      have h2 := (Bool.and_eq_true _ _).mp h1.1
      refine ⟨h2.1, ?_, (strictEqStr_iff _ _).mp h1.2⟩
      have := h2.2
      rw [Bool.not_eq_true'] at this
      exact (strictEqNull_false_iff rx).mp this
    · rintro ⟨ys, hys, rx, hmem, hto, hnn, hst⟩
      injection hys with he
      subst he
      refine ⟨rx, hmem, ?_⟩
      unfold okRefillEntry
      rw [hto, (strictEqNull_false_iff rx).mpr hnn, (strictEqStr_iff _ _).mpr hst]
      rfl
  | undefined =>
    simp only [Bool.false_eq_true, false_iff]
    rintro ⟨ys, hys, -⟩
    exact JSValue.noConfusion hys
  | null =>
    simp only [Bool.false_eq_true, false_iff]
    rintro ⟨ys, hys, -⟩
    exact JSValue.noConfusion hys
  | bool v =>
    simp only [Bool.false_eq_true, false_iff]
    rintro ⟨ys, hys, -⟩
    exact JSValue.noConfusion hys
  | num n =>
    simp only [Bool.false_eq_true, false_iff]
    rintro ⟨ys, hys, -⟩
    exact JSValue.noConfusion hys
  | str s =>
    simp only [Bool.false_eq_true, false_iff]
    rintro ⟨ys, hys, -⟩
    exact JSValue.noConfusion hys
  | obj fields =>
    simp only [Bool.false_eq_true, false_iff]
    rintro ⟨ys, hys, -⟩
    exact JSValue.noConfusion hys

/-- C7: `validateTransferResponse` is true exactly when both the `IsValid`
field and the `RxTransferred` field are strictly the boolean `true`. -/
theorem validateTransferResponse_iff (b : JSValue) :
    validateTransferResponse b = true ↔
      (getField b "IsValid" = JSValue.bool true
        ∧ getField b "RxTransferred" = JSValue.bool true) := by
  rw [validateTransferResponse_eq_match b]
  rw [Bool.and_eq_true]
  rw [strictEqTrue_iff, strictEqTrue_iff]

/-- C1: when the primary BestRX call succeeds, failure of the secondary
Supabase audit write does not change the submit result: for every value of
`auditFails` the hook ends with status `"success"` and returns the primary
response's raw body. -/
theorem audit_failure_preserves_primary_success
    (env : BestRXEnv) (pr pt : FetchOutcome) (fd : RefillFormData) (td : TransferFormData)
    (today : String)
    (hrc : (envTruthy env.username && envTruthy env.apiKey
        && envTruthy env.pharmacyNumber) = true)
    (htc : (envTruthy env.username && envTruthy env.password
        && envTruthy env.pharmacyNumber) = true)
    (hr : (submitRefillToBestRX pr).success = true)
    (ht : (submitTransferToBestRX pt).success = true) :
    (∀ auditFails : Bool,
        (refillSubmitModel env pr auditFails fd).status = "success"
          ∧ (refillSubmitModel env pr auditFails fd).returned
              = Except.ok (submitRefillToBestRX pr).data
          ∧ ∀ status body, pr = .response status body →
              (refillSubmitModel env pr auditFails fd).returned = Except.ok (some body))
      ∧ (∀ auditFails : Bool,
          (transferSubmitModel env pt auditFails td today).status = "success"
            ∧ (transferSubmitModel env pt auditFails td today).returned
                = Except.ok (submitTransferToBestRX pt).data
            ∧ ∀ status body, pt = .response status body →
                (transferSubmitModel env pt auditFails td today).returned
                  = Except.ok (some body)) := by
  constructor
  · intro auditFails
    have hmodel : refillSubmitModel env pr auditFails fd
        = { status := "success", errorMsg := none,
            returned := .ok (submitRefillToBestRX pr).data,
            primaryCalls := 1, auditCalls := 1, auditFailureLogged := auditFails } := by
      unfold refillSubmitModel
      rw [hrc]
      simp [hr]
    refine ⟨by rw [hmodel], by rw [hmodel], ?_⟩
    intro status body he
    rw [hmodel]
    simp only
    rw [submitRefillToBestRX_success_data pr hr status body he]
  · intro auditFails
    have hmodel : transferSubmitModel env pt auditFails td today
        = { status := "success", errorMsg := none,
            returned := .ok (submitTransferToBestRX pt).data,
            primaryCalls := 1, auditCalls := 1, auditFailureLogged := auditFails } := by
      unfold transferSubmitModel
      rw [htc]
      simp [ht]
    refine ⟨by rw [hmodel], by rw [hmodel], ?_⟩
    intro status body he
    rw [hmodel]
    simp only
    rw [submitTransferToBestRX_success_data pt ht status body he]

/-- C1 witness: with full credentials and successful primary responses, the
refill and transfer submits still succeed and return the raw bodies when
the audit write fails. -/
theorem audit_failure_preserves_primary_success_witness :
    (refillSubmitModel fullEnv (FetchOutcome.response 200 okRefillBody) true
        sampleRefillForm).status = "success"
      ∧ (refillSubmitModel fullEnv (FetchOutcome.response 200 okRefillBody) true
          sampleRefillForm).returned = Except.ok (some okRefillBody)
      ∧ (transferSubmitModel fullEnv (FetchOutcome.response 200 okTransferBody) true
          sampleTransferForm "2026-01-01").status = "success"
      ∧ (transferSubmitModel fullEnv (FetchOutcome.response 200 okTransferBody) true
          sampleTransferForm "2026-01-01").returned = Except.ok (some okTransferBody) := by
  have h := audit_failure_preserves_primary_success fullEnv
    (FetchOutcome.response 200 okRefillBody) (FetchOutcome.response 200 okTransferBody)
    sampleRefillForm sampleTransferForm "2026-01-01" rfl rfl rfl rfl
  exact ⟨(h.1 true).1, (h.1 true).2.2 200 okRefillBody rfl,
    (h.2 true).1, (h.2 true).2.2 200 okTransferBody rfl⟩

/-- C3: a refill or transfer submit invoked while a required credential is
absent fails immediately with exactly the fixed not-configured message and
performs zero network calls (no primary fetch, no audit write). -/
theorem missing_credentials_fail_fast
    (env : BestRXEnv) (pr pt : FetchOutcome) (fd : RefillFormData) (td : TransferFormData)
    (today : String) (auditFails : Bool) :
    ((env.username = none ∨ env.apiKey = none ∨ env.pharmacyNumber = none) →
        refillSubmitModel env pr auditFails fd
          = { status := "error", errorMsg := some notConfiguredMessage,
              returned := .error notConfiguredMessage, primaryCalls := 0, auditCalls := 0,
              auditFailureLogged := false })
      ∧ ((env.username = none ∨ env.password = none ∨ env.pharmacyNumber = none) →
          transferSubmitModel env pt auditFails td today
            = { status := "error", errorMsg := some notConfiguredMessage,
                returned := .error notConfiguredMessage, primaryCalls := 0, auditCalls := 0,
                auditFailureLogged := false }) := by
  constructor
  · intro h
    unfold refillSubmitModel
    rcases h with h | h | h <;> rw [h] <;> simp [envTruthy]
  · intro h
    unfold transferSubmitModel
    rcases h with h | h | h <;> rw [h] <;> simp [envTruthy]

/-- C3 witness: with `BESTRX_API_KEY` and `BESTRX_PASSWORD` unset, both
submits fail with the fixed message and make no network call. -/
theorem missing_credentials_fail_fast_witness :
    refillSubmitModel envMissingKey (FetchOutcome.response 200 okRefillBody) false
        sampleRefillForm
        = { status := "error", errorMsg := some notConfiguredMessage,
            returned := .error notConfiguredMessage, primaryCalls := 0, auditCalls := 0,
            auditFailureLogged := false }
      ∧ transferSubmitModel envMissingKey (FetchOutcome.response 200 okTransferBody) false
          sampleTransferForm "2026-01-01"
          = { status := "error", errorMsg := some notConfiguredMessage,
              returned := .error notConfiguredMessage, primaryCalls := 0, auditCalls := 0,
              auditFailureLogged := false } := by
  have h := missing_credentials_fail_fast envMissingKey
    (FetchOutcome.response 200 okRefillBody) (FetchOutcome.response 200 okTransferBody)
    sampleRefillForm sampleTransferForm "2026-01-01" false
  exact ⟨h.1 (Or.inr (Or.inl rfl)), h.2 (Or.inr (Or.inl rfl))⟩
